import Mathlib

/-!
Verification of the CVHelper client (React single-page app) against its
natural-language specification.  The source is shallowly embedded: React
state updates become pure state-transformer functions, DOM/network side
effects become an explicit effect list, and the awaited network response
is an input to the submission handler.
-/

set_option maxRecDepth 4000

namespace CVHelper

/-- One evaluation result returned by the service
(`EvaluationResult` in the spec; consumed by `EvaluationTabs.jsx` and
`EvaluationDetail.jsx`). -/
structure Evaluation where
  job_title : String
  job_description : String
  job_url : Option String
  score_and_explanation : String
deriving Repr, DecidableEq

/-- The React state owned by `App` (src/unnamed/part_000, lines 17-33).
`cvFile` is the opaque file reference (modelled by its name),
`loading` is the Submitting flag, `activePage` / `currentView` the
navigation state. -/
structure AppState where
  cvFile : Option String
  jobUrls : List String
  jobDescriptions : List String
  apiKey : String
  evaluations : List Evaluation
  activeTab : Nat
  loading : Bool
  loadingMessage : String
  sidebarOpen : Bool
  activePage : String
  currentView : String
deriving Repr, DecidableEq

/-- `navigateTo` (part_000 lines 44-50): sets the active page and, when the
window is narrower than 768px, closes the sidebar. -/
def navigateTo (windowWidth : Nat) (page : String) (s : AppState) : AppState :=
  let s := { s with activePage := page }
  if windowWidth < 768 then { s with sidebarOpen := false } else s

/-! ## Dynamic List Editor (`EditableList.jsx`)

JavaScript arrays admit out-of-bounds assignment: `a[i] = v` with
`i >= a.length` grows the array to length `i + 1`, filling the skipped
positions with holes (read back as `undefined`).  The element type is
therefore `Option α`, with `none` standing for a hole. -/

/-- `handleItemChange` (EditableList.jsx lines 6-10): copies the array and
assigns `newItems[index] = value`, with JavaScript's out-of-bounds
assignment semantics. -/
def handleItemChange (items : List (Option α)) (index : Nat) (value : α) :
    List (Option α) :=
  if index < items.length then
    items.set index (some value)
  else
    items ++ List.replicate (index - items.length) none ++ [some value]

/-- `addItem` (EditableList.jsx lines 12-14): appends one empty string. -/
def addItem (items : List (Option String)) : List (Option String) :=
  items ++ [some ""]

/-- JavaScript's `Array.prototype.filter` with an index-aware callback,
tracking the index of the head element explicitly. -/
def filterIdxFrom (f : Nat → α → Bool) : Nat → List α → List α
  | _, [] => []
  | i, a :: as =>
      if f i a then a :: filterIdxFrom f (i + 1) as else filterIdxFrom f (i + 1) as

/-- `removeItem` (EditableList.jsx lines 16-19):
`items.filter((_, i) => i !== index)`. -/
def removeItem (items : List α) (index : Nat) : List α :=
  filterIdxFrom (fun i _ => i ≠ index) 0 items

/-! ## File Selector (`FileUpload.jsx`) wired to the controller -/

/-- The local state of the `FileUpload` component. -/
structure FileUploadState where
  dragActive : Bool
  fileName : String
  showReminder : Bool
deriving Repr, DecidableEq

/-- `handleCvChange` (part_000 lines 39-41): `setCvFile(e.target.files[0])`.
The `files` property of the synthetic event is either a file list or
`null`; reading `[0]` from `null` throws a `TypeError`, modelled as
`Except.error`. -/
def handleCvChange (files : Option (List String)) (s : AppState) :
    Except String AppState :=
  match files with
  | none => Except.error "TypeError: e.target.files is null"
  | some fs => Except.ok { s with cvFile := fs.head? }

/-- `clearFile` (FileUpload.jsx lines 39-42): clears the local file name,
then invokes the parent callback with `{ target: { files: null } }`. -/
def clearFile (fu : FileUploadState) (s : AppState) :
    FileUploadState × Except String AppState :=
  ({ fu with fileName := "" }, handleCvChange none s)

/-! ## Payload serialization (`JSON.stringify` on arrays of strings) -/

/-- Lower-case hexadecimal digit. -/
def hexDigit (n : Nat) : Char :=
  if n < 10 then Char.ofNat (48 + n) else Char.ofNat (97 + n - 10)

/-- `JSON.stringify` escaping of one character inside a string literal. -/
def jsonEscapeChar (c : Char) : List Char :=
  if c = '"' then ['\\', '"']
  else if c = '\\' then ['\\', '\\']
  else if c = Char.ofNat 8 then ['\\', 'b']
  else if c = Char.ofNat 12 then ['\\', 'f']
  else if c = '\n' then ['\\', 'n']
  else if c = Char.ofNat 13 then ['\\', 'r']
  else if c = '\t' then ['\\', 't']
  else if c.toNat < 32 then
    ['\\', 'u', '0', '0', hexDigit (c.toNat / 16), hexDigit (c.toNat % 16)]
  else [c]

/-- `JSON.stringify` of a single string. -/
def jsonQuote (s : String) : String :=
  "\"" ++ String.mk (s.data.flatMap jsonEscapeChar) ++ "\""

/-- `JSON.stringify` of an array of strings (no whitespace is inserted). -/
def jsonStringifyList (xs : List String) : String :=
  "[" ++ String.intercalate "," (xs.map jsonQuote) ++ "]"

/-! ## Application Controller — submission (`handleSubmit`, part_000 lines 52-130) -/

/-- The awaited outcome of the single `fetch` call, as far as `handleSubmit`
observes it: an HTTP-OK response whose JSON body may or may not carry a
(truthy) `evaluations` array, a non-OK response whose JSON body may carry a
`detail` string, or a body that fails to parse as JSON (`response.json()`
throwing), on either an OK or a non-OK response. -/
inductive Response where
  | ok (evaluations : Option (List Evaluation))
  | notOk (detail : Option String)
  | jsonFailure (wasOk : Bool) (errMsg : String)
deriving Repr, DecidableEq

/-- Observable side effects of `handleSubmit`, in program order:
toast notifications, the scroll/highlight of the file-upload section, the
network call (carrying the multipart form fields in insertion order), and
the diagnostic `console.error`. -/
inductive Effect where
  | toastError (msg : String)
  | toastSuccess (msg : String)
  | scrollHighlightFileSection
  | fetchEvaluate (formData : List (String × String))
  | consoleError
deriving Repr, DecidableEq

/-- JavaScript's `a || b` on strings: `b` when `a` is empty (falsy). -/
def jsOr (a b : String) : String :=
  if a = "" then b else a

/-- The white-space set of `String.prototype.trim` (ECMAScript WhiteSpace
plus LineTerminator). -/
def jsWhitespace (c : Char) : Bool :=
  c = ' ' || c = '\t' || c = '\n' || c.toNat = 13 || c.toNat = 11 ||
  c.toNat = 12 || c.toNat = 160 || c.toNat = 0x1680 ||
  (0x2000 ≤ c.toNat && c.toNat ≤ 0x200A) || c.toNat = 0x2028 ||
  c.toNat = 0x2029 || c.toNat = 0x202F || c.toNat = 0x205F ||
  c.toNat = 0x3000 || c.toNat = 0xFEFF

/-- JavaScript's `.trim()`: drop leading and trailing whitespace. -/
def jsTrim (s : String) : String :=
  String.mk (((s.data.dropWhile jsWhitespace).reverse.dropWhile jsWhitespace).reverse)

/-- `jobUrls.filter((url) => url.trim() !== '')` and its twin for
descriptions (part_000 lines 79 and 84). -/
def filterNonBlank (xs : List String) : List String :=
  xs.filter (fun x => jsTrim x ≠ "")

/-- `handleSubmit` (part_000 lines 52-130) as a pure transformer: given the
window width (read by `navigateTo`), the awaited network response, and the
pre-call state, it returns the post-call state and the list of emitted
effects in program order.  Early returns of the JavaScript function become
the non-`fetchEvaluate` branches. -/
def handleSubmit (windowWidth : Nat) (resp : Response) (s : AppState) :
    AppState × List Effect :=
  match s.cvFile with
  | none =>
      ({ s with loading := false },
       [Effect.toastError "Please upload your CV file before submitting",
        Effect.scrollHighlightFileSection])
  | some file =>
      let s1 := { s with loading := true, loadingMessage := "Preparing your data..." }
      let fd0 : List (String × String) := [("cv", file)]
      let validJobUrls := filterNonBlank s1.jobUrls
      let fd1 := if validJobUrls.length > 0 then
          fd0 ++ [("job_urls", jsonStringifyList validJobUrls)] else fd0
      let validJobDescriptions := filterNonBlank s1.jobDescriptions
      let fd2 := if validJobDescriptions.length > 0 then
          fd1 ++ [("job_descriptions", jsonStringifyList validJobDescriptions)] else fd1
      if validJobUrls.length = 0 ∧ validJobDescriptions.length = 0 then
        ({ s1 with loading := false },
         [Effect.toastError "Please provide at least one job URL or description"])
      else if jsTrim s1.apiKey = "" then
        (navigateTo windowWidth "settings" { s1 with loading := false },
         [Effect.toastError "API key is required"])
      else
        let fd3 := fd2 ++ [("api_key", s1.apiKey)]
        let s2 := { s1 with
          loadingMessage := "Analyzing your resume against job requirements..." }
        match resp with
        | Response.notOk detail =>
            let thrown := jsOr (detail.getD "") "Failed to evaluate"
            ({ s2 with loading := false, loadingMessage := "" },
             [Effect.fetchEvaluate fd3, Effect.consoleError,
              Effect.toastError (jsOr thrown "An error occurred during evaluation")])
        | Response.jsonFailure _ errMsg =>
            ({ s2 with loading := false, loadingMessage := "" },
             [Effect.fetchEvaluate fd3, Effect.consoleError,
              Effect.toastError (jsOr errMsg "An error occurred during evaluation")])
        | Response.ok none =>
            ({ s2 with loading := false, loadingMessage := "" },
             [Effect.fetchEvaluate fd3])
        | Response.ok (some evs) =>
            ({ s2 with evaluations := evs, activeTab := 0, currentView := "results",
                       loading := false, loadingMessage := "" },
             [Effect.fetchEvaluate fd3,
              Effect.toastSuccess
                ("Successfully evaluated " ++ toString evs.length ++ " job matches!")])

/-- Whether an effect list contains the network call. -/
def hasFetch (effs : List Effect) : Bool :=
  effs.any fun e =>
    match e with
    | Effect.fetchEvaluate _ => true
    | _ => false

/-- Whether an effect list contains any toast (success or error). -/
def hasToast (effs : List Effect) : Bool :=
  effs.any fun e =>
    match e with
    | Effect.toastError _ => true
    | Effect.toastSuccess _ => true
    | _ => false

/-- The three pre-flight validation failures of `handleSubmit`. -/
def preflightFails (s : AppState) : Bool :=
  s.cvFile.isNone
    || ((filterNonBlank s.jobUrls).length == 0
          && (filterNonBlank s.jobDescriptions).length == 0)
    || jsTrim s.apiKey == ""

/-- Whether the response is a failure (non-OK status, or an unparsable
body). -/
def respFailed : Response → Bool
  | Response.ok _ => false
  | Response.notOk _ => true
  | Response.jsonFailure _ _ => true

/-! ## Evaluation Renderer (`EvaluationDetail.jsx`)

`JSON.parse` is modelled by an executable recursive-descent parser over the
JSON grammar (objects, arrays, strings with escapes, numbers, literals),
returning `none` exactly where `JSON.parse` throws.  Numbers are read
exactly, as rationals. -/

/-- A parsed JSON document. -/
inductive Json where
  | null
  | bool (b : Bool)
  | num (v : ℚ)
  | str (s : String)
  | arr (elems : List Json)
  | obj (fields : List (String × Json))

/-- Skip JSON insignificant whitespace (space, tab, LF, CR). -/
def skipWs : List Char → List Char
  | [] => []
  | c :: cs =>
      if c = ' ' ∨ c = '\t' ∨ c = '\n' ∨ c = Char.ofNat 13 then skipWs cs
      else c :: cs

/-- Value of one hexadecimal digit, if any. -/
def hexVal (c : Char) : Option Nat :=
  if '0' ≤ c ∧ c ≤ '9' then some (c.toNat - 48)
  else if 'a' ≤ c ∧ c ≤ 'f' then some (c.toNat - 97 + 10)
  else if 'A' ≤ c ∧ c ≤ 'F' then some (c.toNat - 65 + 10)
  else none

/-- Body of a JSON string literal (opening quote already consumed): returns
the decoded characters and the input after the closing quote.  Unescaped
control characters are rejected, as in `JSON.parse`. -/
def parseStringChars : List Char → Option (List Char × List Char)
  | [] => none
  | '"' :: rest => some ([], rest)
  | '\\' :: '"' :: rest => (parseStringChars rest).map (fun p => ('"' :: p.1, p.2))
  | '\\' :: '\\' :: rest => (parseStringChars rest).map (fun p => ('\\' :: p.1, p.2))
  | '\\' :: '/' :: rest => (parseStringChars rest).map (fun p => ('/' :: p.1, p.2))
  | '\\' :: 'b' :: rest =>
      (parseStringChars rest).map (fun p => (Char.ofNat 8 :: p.1, p.2))
  | '\\' :: 'f' :: rest =>
      (parseStringChars rest).map (fun p => (Char.ofNat 12 :: p.1, p.2))
  | '\\' :: 'n' :: rest => (parseStringChars rest).map (fun p => ('\n' :: p.1, p.2))
  | '\\' :: 'r' :: rest =>
      (parseStringChars rest).map (fun p => (Char.ofNat 13 :: p.1, p.2))
  | '\\' :: 't' :: rest => (parseStringChars rest).map (fun p => ('\t' :: p.1, p.2))
  | '\\' :: 'u' :: h1 :: h2 :: h3 :: h4 :: rest => do
      let d1 ← hexVal h1
      let d2 ← hexVal h2
      let d3 ← hexVal h3
      let d4 ← hexVal h4
      (parseStringChars rest).map
        (fun p => (Char.ofNat (((d1 * 16 + d2) * 16 + d3) * 16 + d4) :: p.1, p.2))
  | '\\' :: _ => none
  | c :: rest =>
      if c.toNat < 32 then none
      else (parseStringChars rest).map (fun p => (c :: p.1, p.2))

/-- Take a maximal prefix of decimal digits. -/
def takeDigits : List Char → List Char × List Char
  | [] => ([], [])
  | c :: rest =>
      if c.isDigit then
        let (ds, r) := takeDigits rest
        (c :: ds, r)
      else ([], c :: rest)

/-- Numeric value of a digit string. -/
def digitsVal (ds : List Char) : Nat :=
  ds.foldl (fun acc c => acc * 10 + (c.toNat - 48)) 0

/-- A leading zero followed by more digits is not a JSON number. -/
def leadingZeroBad : List Char → Bool
  | '0' :: _ :: _ => true
  | _ => false

/-- Exponent part of a JSON number, after the `e`/`E`. -/
def parseExpPart (cs : List Char) : Option (Int × List Char) :=
  let (sgn, cs1) :=
    match cs with
    | '+' :: r => ((1 : Int), r)
    | '-' :: r => ((-1 : Int), r)
    | _ => ((1 : Int), cs)
  match takeDigits cs1 with
  | ([], _) => none
  | (ds, rest) => some (sgn * (digitsVal ds : Int), rest)

/-- A JSON number (`-? int frac? exp?`), read exactly as a rational. -/
def parseNumber (cs : List Char) : Option (ℚ × List Char) :=
  let (neg, cs1) :=
    match cs with
    | '-' :: r => (true, r)
    | _ => (false, cs)
  match takeDigits cs1 with
  | ([], _) => none
  | (intDs, rest1) =>
      if leadingZeroBad intDs then none
      else
        let fracStep : Option (List Char × List Char) :=
          match rest1 with
          | '.' :: r =>
              match takeDigits r with
              | ([], _) => none
              | (ds, r2) => some (ds, r2)
          | _ => some ([], rest1)
        match fracStep with
        | none => none
        | some (fracDs, rest2) =>
            let expStep : Option (Int × List Char) :=
              match rest2 with
              | 'e' :: r => parseExpPart r
              | 'E' :: r => parseExpPart r
              | _ => some (0, rest2)
            match expStep with
            | none => none
            | some (e, rest3) =>
                let mantissa : Int :=
                  (digitsVal intDs * 10 ^ fracDs.length + digitsVal fracDs : Nat)
                let signed : Int := if neg then -mantissa else mantissa
                some ((signed : ℚ) * (10 : ℚ) ^ (e - (fracDs.length : Int)), rest3)

/-- One JSON value, fuelled by the input length.  The element loop of an
array (and the member loop of an object) is realised by re-parsing the
remainder after a comma as an array (object) again, with an explicit guard
rejecting trailing commas; recursion is structural on the fuel, so the
definition evaluates inside the kernel. -/
def parseValue : Nat → List Char → Option (Json × List Char)
  | 0, _ => none
  | Nat.succ fuel, cs =>
      match skipWs cs with
      | '{' :: rest =>
          match skipWs rest with
          | '}' :: r2 => some (Json.obj [], r2)
          | '"' :: r2 => do
              let (kcs, r3) ← parseStringChars r2
              match skipWs r3 with
              | ':' :: r4 => do
                  let (v, r5) ← parseValue fuel r4
                  match skipWs r5 with
                  | '}' :: r6 => some (Json.obj [(String.mk kcs, v)], r6)
                  | ',' :: r6 =>
                      match skipWs r6 with
                      | '}' :: _ => none
                      | r7 => do
                          let (tail, r8) ← parseValue fuel ('{' :: r7)
                          match tail with
                          | Json.obj fields =>
                              some (Json.obj ((String.mk kcs, v) :: fields), r8)
                          | _ => none
                  | _ => none
              | _ => none
          | _ => none
      | '[' :: rest =>
          match skipWs rest with
          | ']' :: r2 => some (Json.arr [], r2)
          | r2 => do
              let (v, r3) ← parseValue fuel r2
              match skipWs r3 with
              | ']' :: r4 => some (Json.arr [v], r4)
              | ',' :: r4 =>
                  match skipWs r4 with
                  | ']' :: _ => none
                  | r5 => do
                      let (tail, r6) ← parseValue fuel ('[' :: r5)
                      match tail with
                      | Json.arr elems => some (Json.arr (v :: elems), r6)
                      | _ => none
              | _ => none
      | '"' :: rest => do
          let (cs2, rest2) ← parseStringChars rest
          some (Json.str (String.mk cs2), rest2)
      | 't' :: 'r' :: 'u' :: 'e' :: rest => some (Json.bool true, rest)
      | 'f' :: 'a' :: 'l' :: 's' :: 'e' :: rest => some (Json.bool false, rest)
      | 'n' :: 'u' :: 'l' :: 'l' :: rest => some (Json.null, rest)
      | rest => do
          let (q, rest2) ← parseNumber rest
          some (Json.num q, rest2)

/-- `JSON.parse`: one value, then nothing but whitespace; `none` where the
JavaScript function throws. -/
def jsonParse (s : String) : Option Json :=
  match parseValue (s.length + 1) s.data with
  | some (j, rest) => if (skipWs rest).isEmpty then some j else none
  | none => none

/-- The regex replacement ``.replace(/```json|```/g, '')`` of
EvaluationDetail.jsx line 9: at each position the alternation prefers the
longer ```` ```json ```` match. -/
def stripFencesChars : List Char → List Char
  | '`' :: '`' :: '`' :: 'j' :: 's' :: 'o' :: 'n' :: rest => stripFencesChars rest
  | '`' :: '`' :: '`' :: rest => stripFencesChars rest
  | c :: rest => c :: stripFencesChars rest
  | [] => []

/-- Fence stripping on strings. -/
def stripFences (s : String) : String :=
  String.mk (stripFencesChars s.data)

/-- JavaScript truthiness of a parsed JSON value (`scoreData ? ... : ...`). -/
def jsTruthy : Json → Bool
  | Json.null => false
  | Json.bool b => b
  | Json.num q => decide (q ≠ 0)
  | Json.str s => decide (s ≠ "")
  | Json.arr _ => true
  | Json.obj _ => true

/-- The `scoreData` computed by `EvaluationDetail` (lines 6-13): strip the
markdown fences, trim, and attempt `JSON.parse`; `none` when the parse
threw (the `catch` leaves `scoreData = null`). -/
def scoreDataOf (e : Evaluation) : Option Json :=
  jsonParse (jsTrim (stripFences e.score_and_explanation))

/-- What the score section of `EvaluationDetail` renders: the structured
breakdown when `scoreData` is truthy, otherwise the raw
`score_and_explanation` text inside the fixed-width `<pre>` block. -/
inductive RenderMode where
  | breakdown (scoreData : Json)
  | raw (text : String)

/-- The render dispatch of `EvaluationDetail` (lines 129-133):
`scoreData ? <breakdown/> : <pre>{evaluation.score_and_explanation}</pre>`. -/
def evaluationDetailView (e : Evaluation) : RenderMode :=
  match scoreDataOf e with
  | some j =>
      if jsTruthy j then RenderMode.breakdown j
      else RenderMode.raw e.score_and_explanation
  | none => RenderMode.raw e.score_and_explanation

/-- `getScoreColor` (EvaluationDetail.jsx lines 16-22). -/
def getScoreColor (score total : ℚ) : String :=
  let percentage := score / total * 100
  if percentage ≥ 80 then "score-excellent"
  else if percentage ≥ 60 then "score-good"
  else if percentage ≥ 40 then "score-average"
  else "score-poor"

/-- `getScoreLabel` (EvaluationDetail.jsx lines 25-31). -/
def getScoreLabel (score total : ℚ) : String :=
  let percentage := score / total * 100
  if percentage ≥ 80 then "Excellent"
  else if percentage ≥ 60 then "Good"
  else if percentage ≥ 40 then "Average"
  else "Poor"

/-- The banding of §4.8 of the spec, stated on the percentage itself:
`[80,∞)` Excellent, `[60,80)` Good, `[40,60)` Average, below 40 Poor.
This definition follows the spec's words, for comparison with
`getScoreLabel`. -/
def specBandLabel (percentage : ℚ) : String :=
  if 80 ≤ percentage then "Excellent"
  else if 60 ≤ percentage then "Good"
  else if 40 ≤ percentage then "Average"
  else "Poor"

/-! ## Theorems -/

/-- Navigation never touches the results collection. -/
theorem navigateTo_evaluations (w : Nat) (p : String) (s : AppState) :
    (navigateTo w p s).evaluations = s.evaluations := by
  unfold navigateTo
  split <;> rfl

/-- Navigation never touches the focused tab index. -/
theorem navigateTo_activeTab (w : Nat) (p : String) (s : AppState) :
    (navigateTo w p s).activeTab = s.activeTab := by
  unfold navigateTo
  split <;> rfl

/-- Navigation never touches the input/results view. -/
theorem navigateTo_currentView (w : Nat) (p : String) (s : AppState) :
    (navigateTo w p s).currentView = s.currentView := by
  unfold navigateTo
  split <;> rfl

/-- C1: the three pre-flight checks of `submit()` run in a fixed order.
A missing file fails first, whatever the job lists and credential hold,
leaving the progress label untouched (the check precedes entering
`Submitting`), emitting the error toast plus the file-section highlight,
and staying on the current page.  With a file present, empty filtered job
lists fail second, whatever the credential holds.  With a file and a job
target, a blank credential fails third and additionally navigates to the
Settings page.  Each failing check returns `loading = false` (Idle) and an
effect list without any network call — the result does not depend on the
response `r` at all. -/
theorem submit_preflight_checks (w : Nat) (r : Response) (s : AppState) :
    (s.cvFile = none →
       handleSubmit w r s =
         ({ s with loading := false },
          [Effect.toastError "Please upload your CV file before submitting",
           Effect.scrollHighlightFileSection])) ∧
    (∀ f, s.cvFile = some f →
       filterNonBlank s.jobUrls = [] → filterNonBlank s.jobDescriptions = [] →
       handleSubmit w r s =
         ({ s with loading := false, loadingMessage := "Preparing your data..." },
          [Effect.toastError "Please provide at least one job URL or description"])) ∧
    (∀ f, s.cvFile = some f →
       ¬(filterNonBlank s.jobUrls = [] ∧ filterNonBlank s.jobDescriptions = []) →
       jsTrim s.apiKey = "" →
       handleSubmit w r s =
         (navigateTo w "settings"
            { s with loading := false, loadingMessage := "Preparing your data..." },
          [Effect.toastError "API key is required"])) := by
  refine ⟨?_, ?_, ?_⟩
  · intro h
    simp [handleSubmit, h]
  · intro f h hu hd
    simp [handleSubmit, h, hu, hd]
  · intro f h hjobs hkey
    simp [handleSubmit, h, hkey, hjobs]

/-- C1 witness: the three checks observed on concrete states. -/
theorem submit_preflight_checks_witness :
    (handleSubmit 1024 (Response.ok (some []))
        ⟨none, ["u"], [], "k", [], 3, false, "m", false, "home", "input"⟩ =
      (⟨none, ["u"], [], "k", [], 3, false, "m", false, "home", "input"⟩,
       [Effect.toastError "Please upload your CV file before submitting",
        Effect.scrollHighlightFileSection])) ∧
    (handleSubmit 1024 (Response.ok (some []))
        ⟨some "cv.pdf", [" "], [""], "k", [], 3, false, "m", false, "home", "input"⟩ =
      (⟨some "cv.pdf", [" "], [""], "k", [], 3, false,
          "Preparing your data...", false, "home", "input"⟩,
       [Effect.toastError "Please provide at least one job URL or description"])) ∧
    (handleSubmit 500 (Response.ok (some []))
        ⟨some "cv.pdf", ["u"], [], "  ", [], 3, false, "m", true, "home", "input"⟩ =
      (⟨some "cv.pdf", ["u"], [], "  ", [], 3, false,
          "Preparing your data...", false, "settings", "input"⟩,
       [Effect.toastError "API key is required"])) := by
  refine ⟨?_, ?_, ?_⟩
  · exact (submit_preflight_checks 1024 (Response.ok (some []))
      ⟨none, ["u"], [], "k", [], 3, false, "m", false, "home", "input"⟩).1 rfl
  · exact ((submit_preflight_checks 1024 (Response.ok (some []))
      ⟨some "cv.pdf", [" "], [""], "k", [], 3, false, "m", false, "home",
        "input"⟩).2.1 "cv.pdf" rfl (by decide) (by decide)).trans (by decide)
  · exact ((submit_preflight_checks 500 (Response.ok (some []))
      ⟨some "cv.pdf", ["u"], [], "  ", [], 3, false, "m", true, "home",
        "input"⟩).2.2 "cv.pdf" rfl (by decide) (by decide)).trans (by decide)

/-- C2: a successful response carrying an evaluation list replaces the
results collection wholesale, resets the focused tab to 0, switches the
view to "results", leaves `Submitting` (loading off), and emits the
success toast reporting the count — from every prior state. -/
theorem submit_success_updates (w : Nat) (s : AppState) (f : String)
    (evs : List Evaluation)
    (hfile : s.cvFile = some f)
    (hjobs : ¬(filterNonBlank s.jobUrls = [] ∧ filterNonBlank s.jobDescriptions = []))
    (hkey : jsTrim s.apiKey ≠ "") :
    (handleSubmit w (Response.ok (some evs)) s).1.evaluations = evs ∧
    (handleSubmit w (Response.ok (some evs)) s).1.activeTab = 0 ∧
    (handleSubmit w (Response.ok (some evs)) s).1.currentView = "results" ∧
    (handleSubmit w (Response.ok (some evs)) s).1.loading = false ∧
    Effect.toastSuccess
        ("Successfully evaluated " ++ toString evs.length ++ " job matches!")
      ∈ (handleSubmit w (Response.ok (some evs)) s).2 := by
  simp [handleSubmit, hfile, hkey, hjobs]

/-- C2 witness: a concrete prior state with stale results, tab 2 and the
input view, updated by a one-evaluation response. -/
theorem submit_success_updates_witness :
    (handleSubmit 1024 (Response.ok (some [⟨"j", "jd", none, "s"⟩]))
        ⟨some "cv.pdf", ["u"], [], "key", [⟨"old", "od", none, "os"⟩], 2, false,
          "", false, "home", "input"⟩).1.evaluations = [⟨"j", "jd", none, "s"⟩] ∧
    (handleSubmit 1024 (Response.ok (some [⟨"j", "jd", none, "s"⟩]))
        ⟨some "cv.pdf", ["u"], [], "key", [⟨"old", "od", none, "os"⟩], 2, false,
          "", false, "home", "input"⟩).1.activeTab = 0 ∧
    (handleSubmit 1024 (Response.ok (some [⟨"j", "jd", none, "s"⟩]))
        ⟨some "cv.pdf", ["u"], [], "key", [⟨"old", "od", none, "os"⟩], 2, false,
          "", false, "home", "input"⟩).1.currentView = "results" ∧
    Effect.toastSuccess "Successfully evaluated 1 job matches!"
      ∈ (handleSubmit 1024 (Response.ok (some [⟨"j", "jd", none, "s"⟩]))
        ⟨some "cv.pdf", ["u"], [], "key", [⟨"old", "od", none, "os"⟩], 2, false,
          "", false, "home", "input"⟩).2 := by
  have h := submit_success_updates 1024
    ⟨some "cv.pdf", ["u"], [], "key", [⟨"old", "od", none, "os"⟩], 2, false,
      "", false, "home", "input"⟩ "cv.pdf" [⟨"j", "jd", none, "s"⟩]
    rfl (by decide) (by decide)
  exact ⟨h.1, h.2.1, h.2.2.1, h.2.2.2.2⟩

/-- C3: every failing submission — any pre-flight validation failure, and
any non-success network outcome (non-OK status or unparsable body) —
leaves the results collection, the active tab index and the current view
exactly as they were. -/
theorem submit_failure_atomic (w : Nat) (r : Response) (s : AppState)
    (h : preflightFails s = true ∨ respFailed r = true) :
    (handleSubmit w r s).1.evaluations = s.evaluations ∧
    (handleSubmit w r s).1.activeTab = s.activeTab ∧
    (handleSubmit w r s).1.currentView = s.currentView := by
  rcases hcv : s.cvFile with _ | f
  · simp [handleSubmit, hcv]
  · by_cases hu : filterNonBlank s.jobUrls = [] ∧
        filterNonBlank s.jobDescriptions = []
    · simp [handleSubmit, hcv, hu]
    · by_cases hk : jsTrim s.apiKey = ""
      · simp [handleSubmit, hcv, hu, hk, navigateTo_evaluations,
          navigateTo_activeTab, navigateTo_currentView]
      · have hr : respFailed r = true := by
          rcases h with h | h
          · exfalso
            simp only [preflightFails, hcv, Option.isNone_some, Bool.false_or,
              Bool.or_eq_true, Bool.and_eq_true, beq_iff_eq] at h
            rcases h with ⟨h1, h2⟩ | h3
            · exact hu ⟨List.length_eq_zero.mp h1, List.length_eq_zero.mp h2⟩
            · exact hk h3
          · exact h
        rcases r with evals | d | ⟨wasOk, msg⟩
        · simp [respFailed] at hr
        · simp [handleSubmit, hcv, hu, hk]
        · simp [handleSubmit, hcv, hu, hk]

/-- C3 witness: a non-OK response leaves stale results, tab and view
untouched. -/
theorem submit_failure_atomic_witness :
    (handleSubmit 1024 (Response.notOk (some "boom"))
        ⟨some "cv.pdf", ["u"], [], "key", [⟨"old", "od", none, "os"⟩], 2, false,
          "", false, "home", "results"⟩).1.evaluations
      = [⟨"old", "od", none, "os"⟩] ∧
    (handleSubmit 1024 (Response.notOk (some "boom"))
        ⟨some "cv.pdf", ["u"], [], "key", [⟨"old", "od", none, "os"⟩], 2, false,
          "", false, "home", "results"⟩).1.activeTab = 2 ∧
    (handleSubmit 1024 (Response.notOk (some "boom"))
        ⟨some "cv.pdf", ["u"], [], "key", [⟨"old", "od", none, "os"⟩], 2, false,
          "", false, "home", "results"⟩).1.currentView = "results" := by
  exact submit_failure_atomic 1024 (Response.notOk (some "boom"))
    ⟨some "cv.pdf", ["u"], [], "key", [⟨"old", "od", none, "os"⟩], 2, false,
      "", false, "home", "results"⟩ (Or.inr rfl)

/-- C4: when all pre-flight checks pass, the outbound form data's
`job_urls` field is present exactly when the trimmed-non-blank subset of
`jobUrls` is non-empty, holding that subset serialized by `JSON.stringify`
(likewise `job_descriptions`); the filtered subset is a subsequence of the
original (order preserved) containing exactly the entries whose trim is
non-empty; and `["", "http://a", ""]` serializes as `["http://a"]`. -/
theorem submit_payload_contents (w : Nat) (r : Response) (s : AppState)
    (f : String)
    (hfile : s.cvFile = some f)
    (hjobs : ¬(filterNonBlank s.jobUrls = [] ∧ filterNonBlank s.jobDescriptions = []))
    (hkey : jsTrim s.apiKey ≠ "") :
    (∃ p, (handleSubmit w r s).2.head? = some (Effect.fetchEvaluate p) ∧
       p.lookup "job_urls"
         = (if filterNonBlank s.jobUrls = [] then none
            else some (jsonStringifyList (filterNonBlank s.jobUrls))) ∧
       p.lookup "job_descriptions"
         = (if filterNonBlank s.jobDescriptions = [] then none
            else some (jsonStringifyList (filterNonBlank s.jobDescriptions)))) ∧
    (∀ xs : List String, (filterNonBlank xs).Sublist xs) ∧
    (∀ (xs : List String) (x : String),
       x ∈ filterNonBlank xs ↔ x ∈ xs ∧ jsTrim x ≠ "") ∧
    jsonStringifyList (filterNonBlank ["", "http://a", ""]) = "[\"http://a\"]" := by
  refine ⟨?_, fun xs => List.filter_sublist xs,
    fun xs x => by simp [filterNonBlank, List.mem_filter], by decide⟩
  by_cases hU : filterNonBlank s.jobUrls = []
  · have hD : ¬ filterNonBlank s.jobDescriptions = [] := fun hd => hjobs ⟨hU, hd⟩
    refine ⟨[("cv", f),
      ("job_descriptions", jsonStringifyList (filterNonBlank s.jobDescriptions)),
      ("api_key", s.apiKey)], ?_, ?_, ?_⟩
    · rcases r with evals | d | ⟨wasOk, msg⟩
      · rcases evals with _ | evs <;>
          simp [handleSubmit, hfile, hjobs, hkey, hU, hD, List.length_pos]
      · simp [handleSubmit, hfile, hjobs, hkey, hU, hD, List.length_pos]
      · simp [handleSubmit, hfile, hjobs, hkey, hU, hD, List.length_pos]
    · simp [List.lookup, hU]
    · simp [List.lookup, hD]
  · by_cases hD : filterNonBlank s.jobDescriptions = []
    · refine ⟨[("cv", f),
        ("job_urls", jsonStringifyList (filterNonBlank s.jobUrls)),
        ("api_key", s.apiKey)], ?_, ?_, ?_⟩
      · rcases r with evals | d | ⟨wasOk, msg⟩
        · rcases evals with _ | evs <;>
            simp [handleSubmit, hfile, hjobs, hkey, hU, hD, List.length_pos]
        · simp [handleSubmit, hfile, hjobs, hkey, hU, hD, List.length_pos]
        · simp [handleSubmit, hfile, hjobs, hkey, hU, hD, List.length_pos]
      · simp [List.lookup, hU]
      · simp [List.lookup, hD]
    · refine ⟨[("cv", f),
        ("job_urls", jsonStringifyList (filterNonBlank s.jobUrls)),
        ("job_descriptions", jsonStringifyList (filterNonBlank s.jobDescriptions)),
        ("api_key", s.apiKey)], ?_, ?_, ?_⟩
      · rcases r with evals | d | ⟨wasOk, msg⟩
        · rcases evals with _ | evs <;>
            simp [handleSubmit, hfile, hjobs, hkey, hU, hD, List.length_pos]
        · simp [handleSubmit, hfile, hjobs, hkey, hU, hD, List.length_pos]
        · simp [handleSubmit, hfile, hjobs, hkey, hU, hD, List.length_pos]
      · simp [List.lookup, hU]
      · simp [List.lookup, hD]

/-- C4 witness: with URLs `["", "http://a", ""]` and no descriptions, the
payload carries `job_urls = ["http://a"]` and omits `job_descriptions`. -/
theorem submit_payload_contents_witness :
    ∃ p, (handleSubmit 1024 (Response.ok (some []))
        ⟨some "cv.pdf", ["", "http://a", ""], [""], "key", [], 0, false, "",
          false, "home", "input"⟩).2.head? = some (Effect.fetchEvaluate p) ∧
      p.lookup "job_urls" = some "[\"http://a\"]" ∧
      p.lookup "job_descriptions" = none := by
  obtain ⟨⟨p, hp, hu, hd⟩, -, -, hex⟩ := submit_payload_contents 1024
    (Response.ok (some []))
    ⟨some "cv.pdf", ["", "http://a", ""], [""], "key", [], 0, false, "",
      false, "home", "input"⟩ "cv.pdf" rfl (by decide) (by decide)
  refine ⟨p, hp, ?_, ?_⟩
  · rw [hu]
    simp only []
    rw [if_neg (by decide)]
    exact congrArg some (by decide)
  · rw [hd]
    exact if_pos (by decide)

/-- C10: with the pre-flight checks passed, an HTTP-OK response whose body
lacks the `evaluations` field ends silently — results, tab and view are
unchanged, no toast of either kind is emitted, and loading returns to
false (Idle) — whereas an OK response with `evaluations = []` is a full
success: results replaced by the empty collection, tab reset to 0, view
switched to "results", and a success toast reporting 0 matches. -/
theorem submit_ok_missing_vs_empty_evaluations (w : Nat) (s : AppState)
    (f : String)
    (hfile : s.cvFile = some f)
    (hjobs : ¬(filterNonBlank s.jobUrls = [] ∧ filterNonBlank s.jobDescriptions = []))
    (hkey : jsTrim s.apiKey ≠ "") :
    ((handleSubmit w (Response.ok none) s).1.evaluations = s.evaluations ∧
     (handleSubmit w (Response.ok none) s).1.activeTab = s.activeTab ∧
     (handleSubmit w (Response.ok none) s).1.currentView = s.currentView ∧
     (handleSubmit w (Response.ok none) s).1.loading = false ∧
     hasToast (handleSubmit w (Response.ok none) s).2 = false) ∧
    ((handleSubmit w (Response.ok (some [])) s).1.evaluations = [] ∧
     (handleSubmit w (Response.ok (some [])) s).1.activeTab = 0 ∧
     (handleSubmit w (Response.ok (some [])) s).1.currentView = "results" ∧
     Effect.toastSuccess "Successfully evaluated 0 job matches!"
       ∈ (handleSubmit w (Response.ok (some [])) s).2) := by
  constructor
  · refine ⟨?_, ?_, ?_, ?_, ?_⟩ <;>
      simp [handleSubmit, hfile, hjobs, hkey, hasToast]
  · refine ⟨?_, ?_, ?_, ?_⟩ <;>
      simp [handleSubmit, hfile, hjobs, hkey] <;> decide

/-- C10 witness: a concrete passing state under both response bodies. -/
theorem submit_ok_missing_vs_empty_evaluations_witness :
    (handleSubmit 1024 (Response.ok none)
        ⟨some "cv.pdf", ["u"], [], "key", [⟨"old", "od", none, "os"⟩], 2, false,
          "", false, "home", "input"⟩).1.evaluations
      = [⟨"old", "od", none, "os"⟩] ∧
    hasToast (handleSubmit 1024 (Response.ok none)
        ⟨some "cv.pdf", ["u"], [], "key", [⟨"old", "od", none, "os"⟩], 2, false,
          "", false, "home", "input"⟩).2 = false ∧
    (handleSubmit 1024 (Response.ok (some []))
        ⟨some "cv.pdf", ["u"], [], "key", [⟨"old", "od", none, "os"⟩], 2, false,
          "", false, "home", "input"⟩).1.evaluations = [] ∧
    (handleSubmit 1024 (Response.ok (some []))
        ⟨some "cv.pdf", ["u"], [], "key", [⟨"old", "od", none, "os"⟩], 2, false,
          "", false, "home", "input"⟩).1.currentView = "results" := by
  have h := submit_ok_missing_vs_empty_evaluations 1024
    ⟨some "cv.pdf", ["u"], [], "key", [⟨"old", "od", none, "os"⟩], 2, false,
      "", false, "home", "input"⟩ "cv.pdf" rfl (by decide) (by decide)
  exact ⟨h.1.1, h.1.2.2.2.2, h.2.1, h.2.2.2.1⟩

/-- C5 counterexample: editing at index 1 of the one-element sequence
`[some "a"]` is NOT a no-op — JavaScript's out-of-bounds array assignment
appends the value, so the claim fails at this concrete input. -/
theorem handleItemChange_oob_not_noop :
    1 ≥ ([some "a"] : List (Option String)).length ∧
    handleItemChange [some "a"] 1 "x" ≠ [some "a"] := by
  decide

/-- C5 (amended): `edit(index, value)` with `index ≥ length` is not a no-op:
it grows the sequence to length `index + 1`, keeping the existing entries
as a prefix, filling the skipped positions with holes, and placing the
value at position `index`. -/
theorem handleItemChange_oob_extends {α : Type} (items : List (Option α))
    (index : Nat) (value : α) (h : items.length ≤ index) :
    handleItemChange items index value
      = items ++ List.replicate (index - items.length) none ++ [some value] ∧
    (handleItemChange items index value).length = index + 1 ∧
    (handleItemChange items index value).take items.length = items := by
  have hnot : ¬ index < items.length := not_lt.mpr h
  have heq : handleItemChange items index value
      = items ++ List.replicate (index - items.length) none ++ [some value] := by
    unfold handleItemChange
    rw [if_neg hnot]
  refine ⟨heq, ?_, ?_⟩
  · rw [heq]
    simp
    omega
  · rw [heq, List.append_assoc, List.take_left]

/-- C5 witness for the amended statement, at `[some "a"]`, index 2. -/
theorem handleItemChange_oob_extends_witness :
    ([some "a"] : List (Option String)).length ≤ 2 ∧
    handleItemChange [some "a"] 2 "x" = [some "a", none, some "x"] := by
  refine ⟨by decide, ?_⟩
  exact (handleItemChange_oob_extends [some "a"] 2 "x" (by decide)).1.trans rfl

/-- C6: the wired-up `clear()` does not succeed — `clearFile` clears the
component's local file name but passes `files: null` to `handleCvChange`,
whose `e.target.files[0]` access throws a `TypeError`, so `setCvFile` never
runs and the controller keeps the previous file reference. -/
theorem clearFile_throws (fu : FileUploadState) (s : AppState) :
    (clearFile fu s).2 = Except.error "TypeError: e.target.files is null" ∧
    (clearFile fu s).1.fileName = "" :=
  ⟨rfl, rfl⟩

/-- C8: the renderer's categorical label is exactly the spec's percentage
banding — for any score `s` and positive maximum `m`, `getScoreLabel s m`
equals the band of the percentage `100 * s / m`. -/
theorem getScoreLabel_matches_spec_bands (s m : ℚ) (_hm : 0 < m) :
    getScoreLabel s m = specBandLabel (100 * s / m) := by
  have hp : s / m * 100 = 100 * s / m := by ring
  unfold getScoreLabel specBandLabel
  rw [hp]

/-- C8 witness: overall 85/100 and experience 35/40 both label
"Excellent". -/
theorem getScoreLabel_matches_spec_bands_witness :
    (0 : ℚ) < 100 ∧ (0 : ℚ) < 40 ∧
    getScoreLabel 85 100 = "Excellent" ∧ getScoreLabel 35 40 = "Excellent" := by
  refine ⟨by norm_num, by norm_num, ?_, ?_⟩
  · rw [getScoreLabel_matches_spec_bands 85 100 (by norm_num)]
    norm_num [specBandLabel]
  · rw [getScoreLabel_matches_spec_bands 35 40 (by norm_num)]
    norm_num [specBandLabel]

/-- Indices at or beyond `idx + 1` never equal `idx`, so the index-aware
filter keeps everything from there on. -/
theorem filterIdxFrom_keep_all {α : Type} (items : List α) (idx n : Nat)
    (h : idx < n) :
    filterIdxFrom (fun i _ => i ≠ idx) n items = items := by
  induction items generalizing n with
  | nil => rfl
  | cons a as ih =>
      have hne : (decide (n ≠ idx)) = true := by
        simp only [decide_eq_true_eq]
        omega
      simp only [filterIdxFrom]
      rw [if_pos hne, ih (n + 1) (by omega)]

/-- Below the target index the index-aware filter keeps the prefix up to
`idx - n`, drops the element there, and keeps the rest. -/
theorem filterIdxFrom_erase {α : Type} (items : List α) (idx n : Nat)
    (h : n ≤ idx) :
    filterIdxFrom (fun i _ => i ≠ idx) n items
      = items.take (idx - n) ++ items.drop (idx - n + 1) := by
  induction items generalizing n with
  | nil => simp [filterIdxFrom]
  | cons a as ih =>
      by_cases hn : n = idx
      · subst hn
        have hfalse : ¬ ((decide (n ≠ n)) = true) := by
          simp
        have h0 : n - n = 0 := by omega
        simp only [filterIdxFrom]
        rw [if_neg hfalse, filterIdxFrom_keep_all as n (n + 1) (by omega), h0]
        simp
      · have hlt : n < idx := lt_of_le_of_ne h hn
        have hne : (decide (n ≠ idx)) = true := by
          simp only [decide_eq_true_eq]
          omega
        obtain ⟨k, hk⟩ : ∃ k, idx - n = k + 1 := ⟨idx - n - 1, by omega⟩
        have hk2 : idx - (n + 1) = k := by omega
        simp only [filterIdxFrom]
        rw [if_pos hne, ih (n + 1) (by omega), hk, hk2]
        simp

/-- C9: for every in-bounds index, `remove(index)` deletes exactly the
element at that index (the sequence becomes the prefix before it followed
by the suffix after it), the length drops by one, and removing the last
remaining entry leaves the empty sequence, not a re-seeded blank row. -/
theorem removeItem_deletes_at_index {α : Type} (items : List α) (index : Nat)
    (h : index < items.length) :
    removeItem items index = items.take index ++ items.drop (index + 1) ∧
    (removeItem items index).length = items.length - 1 ∧
    ∀ x : α, removeItem [x] 0 = [] := by
  have heq : removeItem items index
      = items.take index ++ items.drop (index + 1) := by
    unfold removeItem
    have := filterIdxFrom_erase items index 0 (Nat.zero_le index)
    simpa using this
  refine ⟨heq, ?_, ?_⟩
  · rw [heq]
    simp
    omega
  · intro x
    unfold removeItem
    rfl

/-- C7: when `score_and_explanation` does not parse as structured data
after fence stripping (`scoreData` is `none`), the Evaluation Renderer
falls back to the raw, unparsed text verbatim — and rendering a collection
of results is elementwise, so one result's parse failure never affects how
any other result renders. -/
theorem parse_failure_renders_raw (e : Evaluation)
    (h : scoreDataOf e = none) :
    evaluationDetailView e = RenderMode.raw e.score_and_explanation ∧
    ∀ (evs : List Evaluation) (i : Nat),
      (evs.map evaluationDetailView).get? i
        = (evs.get? i).map evaluationDetailView := by
  constructor
  · unfold evaluationDetailView
    rw [h]
  · intro evs i
    exact List.get?_map evaluationDetailView evs i

/-- C7 witness: `"not json at all"` fails to parse and renders verbatim. -/
theorem parse_failure_renders_raw_witness :
    scoreDataOf ⟨"t", "d", none, "not json at all"⟩ = none ∧
    evaluationDetailView ⟨"t", "d", none, "not json at all"⟩
      = RenderMode.raw "not json at all" := by
  refine ⟨rfl, ?_⟩
  exact (parse_failure_renders_raw ⟨"t", "d", none, "not json at all"⟩ rfl).1

/-- C9 witness: removing index 1 from `["a","b","c"]` yields `["a","c"]`,
and removing the only element of `["z"]` yields `[]`. -/
theorem removeItem_deletes_at_index_witness :
    1 < (["a", "b", "c"] : List String).length ∧
    removeItem ["a", "b", "c"] 1 = ["a", "c"] ∧
    removeItem ["z"] 0 = ([] : List String) := by
  refine ⟨by decide, ?_, ?_⟩
  · exact (removeItem_deletes_at_index ["a", "b", "c"] 1 (by decide)).1.trans rfl
  · exact (removeItem_deletes_at_index ["z"] 0 (by decide)).2.2 "z"

end CVHelper
